import Mathlib

/-!
Verification of the feed-pagination and optimistic-update logic of an
Instagram-style SNS application.

The client side is embedded from `components/post/PostFeed.tsx`,
`components/post/PostCard.tsx` and `components/profile/FollowButton.tsx`;
the server side from `app/api/posts/route.ts`, the comments API
(`app/api/comments/route.ts`) and the follows API (`app/api/follows/route.ts`).
React state is modelled by explicit state records, network effects by pure
state-transition functions parameterised over the HTTP status of the eventual
response, and the browser event loop by folding a list of events over the
state.
-/

namespace SnsProj

/-- Models `response.ok` of the Fetch API: true exactly for 2xx statuses. -/
def isOk (status : Nat) : Bool := decide (200 ≤ status) && decide (status < 300)

/-! ### Data model (`lib/types.ts`) -/

/-- A feed item as delivered by `GET /api/posts` (`PostWithStats` in
`lib/types.ts`); `created_at` is the creation timestamp. -/
structure PostWithStats where
  id : String
  user_id : String
  created_at : Nat
  likes_count : Nat
  comments_count : Nat
deriving DecidableEq, Repr

/-! ### PostFeed component state (`components/post/PostFeed.tsx`)

The React state hooks of `PostFeed` (lines 37-44): `posts`, `loading`,
`hasMore`, `error`, `offset`, plus the `loadingRef` ref. The extra `fetches`
field is a ghost log of the offsets of every `fetch("/api/posts?...")` call
issued, used to state how many network requests are made. -/
structure PostFeedState where
  posts : List PostWithStats
  loading : Bool
  hasMore : Bool
  error : Option String
  offset : Nat
  loadingRef : Bool
  fetches : List Nat
deriving DecidableEq, Repr

/-- The synchronous prefix of `loadPosts` (PostFeed.tsx lines 53-69): if
`loadingRef.current` is set the call returns without doing anything;
otherwise it sets `loadingRef`/`loading`, clears `error` and issues the
fetch for `currentOffset` (recorded in the ghost log). -/
def loadPostsStart (s : PostFeedState) (currentOffset : Nat) : PostFeedState :=
  if s.loadingRef then s
  else { s with loadingRef := true, loading := true, error := none,
                fetches := s.fetches ++ [currentOffset] }

/-- The success continuation of `loadPosts` (PostFeed.tsx lines 77-97 plus the
`finally` block, lines 109-112): an empty page only clears `hasMore`; a
non-empty page is appended to the tail with `[...prev, ...data.posts]`
(or replaces the list when `replace` is set) and `hasMore` is taken from the
response; finally `loading` and `loadingRef` are cleared. -/
def loadPostsSuccess (s : PostFeedState) (replace : Bool)
    (page : List PostWithStats) (hasMore : Bool) : PostFeedState :=
  let s1 :=
    if page.isEmpty then { s with hasMore := false }
    else { s with posts := if replace then page else s.posts ++ page,
                  hasMore := hasMore }
  { s1 with loading := false, loadingRef := false }

/-- The failure continuation of `loadPosts` (PostFeed.tsx lines 98-112): the
catch block stores an error message, the `finally` block clears `loading` and
`loadingRef`; `posts`, `hasMore` and `offset` are untouched. -/
def loadPostsFailure (s : PostFeedState) (msg : String) : PostFeedState :=
  { s with error := some msg, loading := false, loadingRef := false }

/-- The render condition of the scroll sentinel element (PostFeed.tsx line
277): the sentinel div is mounted iff `hasMore && !loading`; the `error`
state is not consulted. -/
def sentinelRendered (s : PostFeedState) : Bool := s.hasMore && !s.loading

/-- One firing of the IntersectionObserver callback on a visible sentinel
(PostFeed.tsx lines 142-153): when `hasMore && !loading` it bumps `offset` by
the page size 10 and calls `loadPosts` at the previous offset. -/
def observerFire (s : PostFeedState) : PostFeedState :=
  if s.hasMore && !s.loading then
    loadPostsStart { s with offset := s.offset + 10 } s.offset
  else s

/-! ### Server: `GET /api/posts` (`app/api/posts/route.ts`)

The endpoint runs `from("post_stats").select("*")
.order("created_at", { ascending: false }).range(offset, offset + limit - 1)`
with an optional `eq("user_id", userId)` filter (lines 42-53).  The database
is modelled as the list of rows in storage order; `order(...)` keyed on
`created_at` alone is modelled as a stable descending sort on that single
key, and `range` as drop/take. -/

/-- A row of the `post_stats` view. -/
structure PostRow where
  post_id : String
  user_id : String
  created_at : Nat
  likes_count : Nat
  comments_count : Nat
deriving DecidableEq, Repr

/-- Insert a row into a list that is already sorted by `created_at`
descending, before the first row whose timestamp is `≤` its own (so that a
row inserted earlier keeps its place ahead of equal timestamps: the sort
below is stable). -/
def insertByCreatedDesc (r : PostRow) : List PostRow → List PostRow
  | [] => [r]
  | x :: xs =>
    if x.created_at ≤ r.created_at then r :: x :: xs
    else x :: insertByCreatedDesc r xs

/-- Stable sort of the rows by `created_at` descending — the whole content of
the query's `order("created_at", { ascending: false })` clause: no secondary
sort key is requested. -/
def sortByCreatedDesc (rows : List PostRow) : List PostRow :=
  rows.foldr insertByCreatedDesc []

/-- The relation guaranteed between successive returned rows: timestamps are
non-increasing. -/
def createdDescRel (a b : PostRow) : Prop := b.created_at ≤ a.created_at

/-- The database query of the GET handler (route.ts lines 42-53): optional
`user_id` filter, order by `created_at` descending, then
`range(offset, offset + limit - 1)`. -/
def postStatsQuery (table : List PostRow) (userId : Option String)
    (limit offset : Nat) : List PostRow :=
  let rows := match userId with
    | some u => table.filter (fun p => p.user_id == u)
    | none => table
  ((sortByCreatedDesc rows).drop offset).take limit

/-- The JSON body of a successful `GET /api/posts` response. -/
structure PostsResponse where
  posts : List PostRow
  hasMore : Bool
deriving DecidableEq, Repr

/-- The GET handler (route.ts lines 42-109): an empty query result is
returned as `{ posts: [], hasMore: false }` (lines 63-68); otherwise the rows
are returned with `hasMore = (postStats.length === limit)` (lines 102-109). -/
def getPosts (table : List PostRow) (userId : Option String)
    (limit offset : Nat) : PostsResponse :=
  let postStats := postStatsQuery table userId limit offset
  if postStats.isEmpty then { posts := [], hasMore := false }
  else { posts := postStats, hasMore := postStats.length == limit }

/-! ### Like toggle (`components/post/PostCard.tsx`, lines 390-441)

The like button's `onClick` captures `newLikedState = !isLiked`, applies it
optimistically with `setIsLiked(newLikedState)`, and issues
`POST /api/likes` when `newLikedState` is true, `DELETE /api/likes` when it
is false.  The catch handler does `setIsLiked(!newLikedState)` and shows an
alert.  The success path only invokes the `onLike` callback, which in
`PostFeed` (lines 163-165) is a TODO no-op, so neither path ever changes the
displayed `likes_count`. -/

/-- The like-relevant view state of one `PostCard`: the `isLiked` hook, the
`post.likes_count` prop as rendered, and whether an error alert was shown. -/
structure LikeView where
  isLiked : Bool
  likesCount : Nat
  errorShown : Bool
deriving DecidableEq, Repr

/-- The optimistic phase of the like `onClick` (lines 392-393): flip
`isLiked` and remember the `newLikedState` captured by the request. -/
def likeTrigger (v : LikeView) : LikeView × Bool :=
  let newLikedState := !v.isLiked
  ({ v with isLiked := newLikedState }, newLikedState)

/-- Whether the response handling throws (lines 406-423): for the POST
(`newLikedState = true`) any non-ok status other than 409 throws — 409 is
explicitly ignored (line 409); for the DELETE (`newLikedState = false`) any
non-ok status throws, 409 included. -/
def likeRequestThrows (newLikedState : Bool) (status : Nat) : Bool :=
  if newLikedState then !isOk status && !(status == 409)
  else !isOk status

/-- Processing the response of one like request (lines 406-441): when the
handler throws, the catch block rolls `isLiked` back to `!newLikedState` and
alerts; otherwise the view is unchanged (the `onLike` success callback is a
no-op in the feed). -/
def likeSettle (v : LikeView) (newLikedState : Bool) (status : Nat) : LikeView :=
  if likeRequestThrows newLikedState status then
    { v with isLiked := !newLikedState, errorShown := true }
  else v

/-- An event of the browser event loop for one post's like button: a user
click, or the arrival of the response (with its HTTP status) of the `i`-th
request issued so far. -/
inductive LikeEvent where
  | click : LikeEvent
  | respond : Nat → Nat → LikeEvent
deriving DecidableEq, Repr

/-- A like-toggle session: the card's view state plus the `newLikedState`
captured by each request issued so far, in click order. -/
structure LikeSession where
  view : LikeView
  calls : List Bool
deriving DecidableEq, Repr

/-- One step of the event loop: a click runs the optimistic phase and issues
a request; a response settles the request it belongs to.  Each click fires an
independent request; nothing cancels or sequences in-flight requests, and a
response is processed whenever it arrives. -/
def likeSessionStep (s : LikeSession) : LikeEvent → LikeSession
  | .click =>
    let t := likeTrigger s.view
    { view := t.1, calls := s.calls ++ [t.2] }
  | .respond i status =>
    match s.calls[i]? with
    | some sent => { s with view := likeSettle s.view sent status }
    | none => s

/-- Run a list of events over a session. -/
def likeSessionRun (s : LikeSession) (events : List LikeEvent) : LikeSession :=
  events.foldl likeSessionStep s

/-- The last user intent: the `newLikedState` of the most recent click. -/
def lastIntent (s : LikeSession) : Option Bool := s.calls.getLast?

/-- A session on a post with `likes_count = 5` that the viewer has not liked,
before any click. -/
def likeSession0 : LikeSession := { view := ⟨false, 5, false⟩, calls := [] }

/-- Three rapid clicks (like, unlike, like) faster than the network round
trip; the responses of the second and third request arrive first and succeed,
and the 500-failure response of the first request arrives last, after it has
been superseded twice. -/
def staleTrace : List LikeEvent :=
  [.click, .click, .click, .respond 1 200, .respond 2 200, .respond 0 500]

/-! ### Outcome of the other mutations on a 409/any status

Each definition embeds the response check of the corresponding client
handler; `commit` means the handler proceeds on its success path (optimistic
state kept / result applied), `rollback` means it throws into its catch
block (state rolled back or not applied, error surfaced). -/

/-- Outcome of a settled mutation request on the client. -/
inductive MutationOutcome where
  | commit : MutationOutcome
  | rollback : MutationOutcome
deriving DecidableEq, Repr

/-- Save (`POST /api/saves`, PostCard.tsx lines 513-536): non-ok statuses
throw except 409, which is explicitly ignored (line 527). -/
def saveAddOutcome (status : Nat) : MutationOutcome :=
  if isOk status then .commit
  else if status == 409 then .commit
  else .rollback

/-- Unsave (`DELETE /api/saves`, PostCard.tsx lines 543-563): every non-ok
status throws; there is no 409 case. -/
def saveRemoveOutcome (status : Nat) : MutationOutcome :=
  if isOk status then .commit else .rollback

/-- Follow and unfollow (`FollowButton.tsx` lines 43-76): in both branches
every non-ok status throws into the rollback-and-alert catch block (lines
77-89); there is no 409 case.  The state is only set after a success, so the
button is not optimistic at all. -/
def followToggleOutcome (status : Nat) : MutationOutcome :=
  if isOk status then .commit else .rollback

/-- Comment add (`POST /api/comments`, PostCard.tsx lines 193-197): every
non-ok status throws; the comment is only added locally on success. -/
def commentAddOutcome (status : Nat) : MutationOutcome :=
  if isOk status then .commit else .rollback

/-- Comment delete (`DELETE /api/comments`, PostCard.tsx lines 230-233):
every non-ok status throws; only a success removes the comment locally. -/
def commentDeleteOutcome (status : Nat) : MutationOutcome :=
  if isOk status then .commit else .rollback

/-! ### Comment deletion (`handleCommentDelete`, PostCard.tsx lines 223-257,
and the comments DELETE endpoint) -/

/-- The comment-preview state of one `PostCard`: the loaded comment ids, the
`comments_count` prop, whether an alert was shown, and whether a preview
reload was requested. -/
structure CommentsView where
  comments : List String
  commentsCount : Nat
  alertShown : Bool
  reloadRequested : Bool
deriving DecidableEq, Repr

/-- `handleCommentDelete` (lines 224-254) given the response status of
`DELETE /api/comments?commentId=...`: on a non-ok response it throws and the
catch block alerts (no local change); on success it filters the comment out,
decrements the count via `Math.max(0, count - 1)` (truncated subtraction) and
requests a preview reload when at most 2 comments were loaded. -/
def handleCommentDelete (v : CommentsView) (commentId : String)
    (status : Nat) : CommentsView :=
  if isOk status then
    { v with comments := v.comments.filter (fun c => !(c == commentId)),
             commentsCount := v.commentsCount - 1,
             reloadRequested := decide (v.comments.length ≤ 2) }
  else { v with alertShown := true }

/-- A row of the `comments` table, reduced to the columns the DELETE endpoint
reads (`id, user_id`). -/
structure CommentRow where
  id : String
  user_id : String
deriving DecidableEq, Repr

/-- Status returned by `DELETE /api/comments` (comments route, DELETE
handler) for an authenticated caller whose supabase user id is already
resolved: 404 when the comment does not exist (the already-deleted case),
403 when the caller does not own it, 200 otherwise. -/
def commentsDeleteStatus (table : List CommentRow) (callerUserId : String)
    (commentId : String) : Nat :=
  match table.find? (fun c => c.id == commentId) with
  | none => 404
  | some c => if c.user_id == callerUserId then 200 else 403

/-! ### Follows endpoint (`app/api/follows/route.ts`, POST handler) -/

/-- The slice of the database the follows POST handler touches: `users` as
(id, clerk_id) pairs and `follows` as (follower_id, following_id) pairs. -/
structure FollowsDb where
  users : List (String × String)
  follows : List (String × String)
deriving DecidableEq, Repr

/-- Result of one `POST /api/follows` request: HTTP status, optional error
body, and the database afterwards. -/
structure FollowsResult where
  status : Nat
  error : Option String
  db : FollowsDb
deriving DecidableEq, Repr

/-- `POST /api/follows` (follows route lines 24-124): 401 without auth, 400
without a `followingId`, 404 when the caller's user row is missing, 400 when
the resolved follower id equals `followingId` (the self-follow guard, lines
62-68, reached before any insert), 404 when the target user is missing, 409
on a duplicate follow, else the row is inserted and 201 returned. -/
def followsPost (db : FollowsDb) (authClerkId : Option String)
    (body : Option String) : FollowsResult :=
  match authClerkId with
  | none => ⟨401, some "인증이 필요합니다.", db⟩
  | some clerkId =>
    match body with
    | none => ⟨400, some "followingId가 필요합니다.", db⟩
    | some followingId =>
      match db.users.find? (fun p => p.2 == clerkId) with
      | none => ⟨404, some "사용자 정보를 찾을 수 없습니다.", db⟩
      | some currentUser =>
        if currentUser.1 == followingId then
          ⟨400, some "자기 자신을 팔로우할 수 없습니다.", db⟩
        else
          match db.users.find? (fun p => p.1 == followingId) with
          | none => ⟨404, some "팔로우할 사용자를 찾을 수 없습니다.", db⟩
          | some _ =>
            if db.follows.contains (currentUser.1, followingId) then
              ⟨409, some "이미 팔로우 중입니다.", db⟩
            else ⟨201, none, { db with follows := db.follows ++ [(currentUser.1, followingId)] }⟩

/-! ### Concrete fixtures used by witnesses and counterexamples -/

/-- A concrete feed item. -/
def pDup : PostWithStats := ⟨"p1", "u1", 100, 0, 0⟩

/-- Feed state in the middle of a fetch at offset 0. -/
def feedMid : PostFeedState := ⟨[], true, true, none, 0, true, [0]⟩

/-- Idle feed state ready for the first sentinel trigger. -/
def feedReady : PostFeedState := ⟨[], false, true, none, 0, false, []⟩

/-- Two post rows sharing one creation timestamp but with different
identities. -/
def rowA : PostRow := ⟨"a", "u1", 5, 0, 0⟩

/-- See `rowA`. -/
def rowB : PostRow := ⟨"b", "u2", 5, 0, 0⟩

/-- A row newer than `rowA` and `rowB`, inserted between two page fetches. -/
def rowC : PostRow := ⟨"c", "u3", 11, 0, 0⟩

/-- An older row used by the pagination counterexample. -/
def rowD : PostRow := ⟨"d", "u4", 3, 0, 0⟩

/-- A database with one user, used by the self-follow witness. -/
def dbSelf : FollowsDb := ⟨[("u1", "c1")], []⟩

end SnsProj

namespace SnsProj

/-! ### Helper lemmas about the sort of the posts query -/

theorem mem_insertByCreatedDesc {r x : PostRow} {l : List PostRow}
    (h : x ∈ insertByCreatedDesc r l) : x = r ∨ x ∈ l := by
  induction l with
  | nil =>
    simp [insertByCreatedDesc] at h
    exact Or.inl h
  | cons y ys ih =>
    rw [insertByCreatedDesc] at h
    split at h
    · rcases List.mem_cons.mp h with h1 | h1
      · exact Or.inl h1
      · exact Or.inr h1
    · rcases List.mem_cons.mp h with h1 | h1
      · subst h1
        exact Or.inr (List.mem_cons_self x ys)
      · rcases ih h1 with h2 | h2
        · exact Or.inl h2
        · exact Or.inr (List.mem_cons_of_mem y h2)

theorem pairwise_insertByCreatedDesc {r : PostRow} {l : List PostRow}
    (hl : l.Pairwise createdDescRel) :
    (insertByCreatedDesc r l).Pairwise createdDescRel := by
  induction l with
  | nil => simp [insertByCreatedDesc]
  | cons y ys ih =>
    rw [insertByCreatedDesc]
    rcases List.pairwise_cons.mp hl with ⟨hy, hys⟩
    split
    · next hle =>
      refine List.pairwise_cons.mpr ⟨?_, hl⟩
      intro z hz
      rcases List.mem_cons.mp hz with h1 | h1
      · subst h1
        exact hle
      · exact le_trans (hy z h1) hle
    · next hgt =>
      refine List.pairwise_cons.mpr ⟨?_, ih hys⟩
      intro z hz
      rcases mem_insertByCreatedDesc hz with h1 | h1
      · subst h1
        exact (not_le.mp hgt).le
      · exact hy z h1

theorem pairwise_sortByCreatedDesc (rows : List PostRow) :
    (sortByCreatedDesc rows).Pairwise createdDescRel := by
  induction rows with
  | nil => simp [sortByCreatedDesc]
  | cons r rs ih =>
    show (insertByCreatedDesc r (sortByCreatedDesc rs)).Pairwise createdDescRel
    exact pairwise_insertByCreatedDesc ih

theorem pairwise_sorted_slice (rows : List PostRow) (limit offset : Nat) :
    (((sortByCreatedDesc rows).drop offset).take limit).Pairwise createdDescRel :=
  List.Pairwise.sublist ((List.take_sublist _ _).trans (List.drop_sublist _ _))
    (pairwise_sortByCreatedDesc rows)

theorem pairwise_postStatsQuery (table : List PostRow) (userId : Option String)
    (limit offset : Nat) :
    (postStatsQuery table userId limit offset).Pairwise createdDescRel := by
  unfold postStatsQuery
  exact pairwise_sorted_slice _ limit offset

end SnsProj

namespace SnsProj

/-! ### Claim C1: identity-deduplicating append -/

/-- C1, counterexample: the feed append (`setPosts((prev) => [...prev,
...data.posts])`) performs no identity check, so delivering the same page
twice (e.g., a retried fetch) stores the item `pDup` twice: the resulting
list contains its identity twice and differs from the single-append list,
refuting both the at-most-once invariant and append idempotence. -/
theorem c1_append_counterexample :
    (loadPostsSuccess (loadPostsSuccess feedMid false [pDup] true) false
        [pDup] true).posts = [pDup, pDup] ∧
    (loadPostsSuccess feedMid false [pDup] true).posts = [pDup] ∧
    (loadPostsSuccess (loadPostsSuccess feedMid false [pDup] true) false
        [pDup] true).posts.countP (fun q => q.id == "p1") = 2 := by
  decide

/-- C1, amended: a page append concatenates the fetched page at the tail with
no identity check, so the multiplicity of any identity in the resulting list
is the sum of its multiplicities in the previous list and in the page;
appending the same non-empty page twice therefore duplicates its identities
instead of skipping them. -/
theorem c1_append_amended (s : PostFeedState) (page : List PostWithStats)
    (hm : Bool) (i : String) :
    (loadPostsSuccess s false page hm).posts.countP (fun q => q.id == i) =
      s.posts.countP (fun q => q.id == i) + page.countP (fun q => q.id == i) := by
  by_cases hp : page.isEmpty
  · have hnil : page = [] := List.isEmpty_iff.mp hp
    subst hnil
    simp [loadPostsSuccess]
  · simp [loadPostsSuccess, hp, List.countP_append]

/-! ### Claim C2: stale responses and last user intent -/

/-- C2: three like-toggle clicks (like, unlike, like) overlap in flight; the
last intent is `liked = true`, the second and third requests succeed, and
then the stale 500-failure of the first request is processed.  The catch
handler blindly writes `setIsLiked(!newLikedState)`, so the stale response
overwrites the newer state and the session ends with `isLiked = false`,
contradicting the last user intent — the code has no stale-response guard. -/
theorem c2_stale_response_eval :
    (likeSessionRun likeSession0 staleTrace).view = ⟨false, 5, true⟩ ∧
    lastIntent (likeSessionRun likeSession0 staleTrace) = some true := by
  decide

/-! ### Claim C3: ordering of `GET /api/posts` -/

/-- C3, counterexample: `rowA` and `rowB` share a creation timestamp but have
different identities; the query sorts on `created_at` alone, so the two
storage orders of the same two rows are both returned unchanged — the tie
order is whatever the database produces, not a stable secondary identity
key.  Moreover, with offset pagination a concurrent insert of the newer
`rowC` between two page fetches makes page 1 re-serve `rowA` (already served
on page 0), so items can be duplicated or skipped even without ties. -/
theorem c3_order_counterexample :
    postStatsQuery [rowA, rowB] none 10 0 = [rowA, rowB] ∧
    postStatsQuery [rowB, rowA] none 10 0 = [rowB, rowA] ∧
    rowA.created_at = rowB.created_at ∧
    rowA.post_id ≠ rowB.post_id ∧
    postStatsQuery [rowA, rowD] none 1 0 = [rowA] ∧
    postStatsQuery [rowC, rowA, rowD] none 1 1 = [rowA] := by
  decide

/-- C3, amended: the returned items are ordered by creation timestamp
descending, but only non-strictly: the query requests no secondary sort key,
so items with identical timestamps appear in an order the database chooses
(not determined by identity), and offset-based pagination gives no protection
against duplicated or skipped items under concurrent inserts. -/
theorem c3_order_amended (table : List PostRow) (userId : Option String)
    (limit offset : Nat) :
    (getPosts table userId limit offset).posts.Pairwise createdDescRel := by
  show (if (postStatsQuery table userId limit offset).isEmpty then
      ({ posts := [], hasMore := false } : PostsResponse)
    else { posts := postStatsQuery table userId limit offset,
           hasMore := (postStatsQuery table userId limit offset).length == limit
         }).posts.Pairwise createdDescRel
  split
  · simp
  · exact pairwise_postStatsQuery table userId limit offset

/-! ### Claim C4: 409 treated as success -/

/-- C4, counterexample: an unlike (`DELETE /api/likes`) response with status
409 is thrown like any error — the optimistic state is rolled back and an
alert is shown — whereas a 200 keeps the optimistic state silently; the save
removal, follow toggle and comment deletion handlers likewise treat 409 as a
plain failure.  So 409 is not uniformly success-equivalent. -/
theorem c4_conflict_counterexample :
    likeSettle ⟨false, 5, false⟩ false 409 = ⟨true, 5, true⟩ ∧
    likeSettle ⟨false, 5, false⟩ false 200 = ⟨false, 5, false⟩ ∧
    saveRemoveOutcome 409 = MutationOutcome.rollback ∧
    saveRemoveOutcome 200 = MutationOutcome.commit ∧
    followToggleOutcome 409 = MutationOutcome.rollback ∧
    commentDeleteOutcome 409 = MutationOutcome.rollback := by
  decide

/-- C4, amended: only the two additive mutations ignore conflicts — like-add
and save-add treat a 409 response exactly like success (optimistic state
kept, no error) — while unlike, unsave, comment add, comment delete, follow
and unfollow treat 409 like any other non-2xx failure: the handler throws,
state is rolled back or not applied, and an error is surfaced. -/
theorem c4_conflict_amended :
    likeRequestThrows true 409 = false ∧
    likeSettle ⟨true, 5, false⟩ true 409 = ⟨true, 5, false⟩ ∧
    saveAddOutcome 409 = MutationOutcome.commit ∧
    likeRequestThrows false 409 = true ∧
    saveRemoveOutcome 409 = MutationOutcome.rollback ∧
    followToggleOutcome 409 = MutationOutcome.rollback ∧
    commentAddOutcome 409 = MutationOutcome.rollback ∧
    commentDeleteOutcome 409 = MutationOutcome.rollback := by
  decide

/-! ### Claim C5: optimistic like count and rollback -/

/-- C5, counterexample: clicking like on a post with `likes_count = 5` and
`liked_by_viewer = false` flips only `isLiked`; the displayed count stays 5,
not 6 — `likes_count` is never optimistically updated (the `onLike` callback
that could adjust it only fires on success and is a no-op in the feed). -/
theorem c5_count_counterexample :
    (likeTrigger ⟨false, 5, false⟩).1 = ⟨true, 5, false⟩ ∧
    ¬(likeTrigger ⟨false, 5, false⟩).1.likesCount = 6 := by
  decide

/-- C5, amended: immediately after the trigger the local state shows
`liked_by_viewer = true` but `like_count` still equal to N (the count is not
optimistically updated); when the call fails with a non-conflict error the
final state is again `(N, false)` and an error message is surfaced. -/
theorem c5_rollback_amended (n status : Nat) (hok : isOk status = false)
    (h409 : status ≠ 409) :
    (likeTrigger ⟨false, n, false⟩).1.isLiked = true ∧
    (likeTrigger ⟨false, n, false⟩).1.likesCount = n ∧
    likeSettle (likeTrigger ⟨false, n, false⟩).1 (likeTrigger ⟨false, n, false⟩).2
      status = ⟨false, n, true⟩ := by
  have h4 : (status == 409) = false := beq_eq_false_iff_ne.mpr h409
  refine ⟨rfl, rfl, ?_⟩
  simp [likeTrigger, likeSettle, likeRequestThrows, hok, h4]

/-- C5, witness: the amended statement instantiated at N = 5 and a 500
response. -/
theorem c5_rollback_witness :
    isOk 500 = false ∧ 500 ≠ 409 ∧
    ((likeTrigger ⟨false, 5, false⟩).1.isLiked = true ∧
     (likeTrigger ⟨false, 5, false⟩).1.likesCount = 5 ∧
     likeSettle (likeTrigger ⟨false, 5, false⟩).1 (likeTrigger ⟨false, 5, false⟩).2
       500 = ⟨false, 5, true⟩) :=
  ⟨by decide, by decide, c5_rollback_amended 5 500 (by decide) (by decide)⟩

end SnsProj

namespace SnsProj

/-! ### Claim C6: single fetch per offset while pending -/

/-- C6: from an idle state with more pages available, the first sentinel
trigger issues exactly one fetch, at the current offset; however many further
times the observer callback fires before that fetch resolves, the
`loadingRef` guard (and the `loading` check of the callback) prevent any
additional fetch: the ghost log still holds exactly the one new offset. -/
theorem c6_single_fetch (s : PostFeedState) (n : Nat)
    (h1 : s.loadingRef = false) (h2 : s.hasMore = true) (h3 : s.loading = false) :
    (observerFire^[n] (observerFire s)).fetches = s.fetches ++ [s.offset] := by
  have hfix : ∀ t : PostFeedState, t.loading = true → observerFire t = t := by
    intro t ht
    simp [observerFire, ht]
  have hload : (observerFire s).loading = true := by
    simp [observerFire, loadPostsStart, h1, h2, h3]
  have hfet : (observerFire s).fetches = s.fetches ++ [s.offset] := by
    simp [observerFire, loadPostsStart, h1, h2, h3]
  rw [Function.iterate_fixed (hfix _ hload), hfet]

/-- C6, witness: three extra sentinel firings after the first trigger on the
idle ready state still leave a single fetch, at offset 0. -/
theorem c6_single_fetch_witness :
    feedReady.loadingRef = false ∧ feedReady.hasMore = true ∧
    feedReady.loading = false ∧
    (observerFire^[3] (observerFire feedReady)).fetches =
      feedReady.fetches ++ [feedReady.offset] :=
  ⟨rfl, rfl, rfl, c6_single_fetch feedReady 3 rfl rfl rfl⟩

/-! ### Claim C7: behaviour after a failed page fetch -/

/-- C7, counterexample: after a failed fetch the list is indeed unchanged,
but the sentinel render condition (`hasMore && !loading`) ignores the error
state, so the sentinel is remounted and the next observer firing — no user
action involved — issues a fresh fetch: the ghost log grows from `[0]` to
`[0, 0]` with no manual retry. -/
theorem c7_retrigger_counterexample :
    (loadPostsFailure feedMid "e").posts = feedMid.posts ∧
    (loadPostsFailure feedMid "e").error = some "e" ∧
    sentinelRendered (loadPostsFailure feedMid "e") = true ∧
    (loadPostsFailure feedMid "e").fetches = [0] ∧
    (observerFire (loadPostsFailure feedMid "e")).fetches = [0, 0] := by
  decide

/-- C7, amended: a failed page fetch leaves the loaded list unchanged and
records an error message, but the scroll trigger is not disarmed: whenever
`hasMore` is still set, the sentinel is re-rendered (the render condition
does not consult the error) and an intersecting sentinel automatically
issues the next fetch — no manual retry is required or offered. -/
theorem c7_failure_amended (s : PostFeedState) (msg : String)
    (h : s.hasMore = true) :
    (loadPostsFailure s msg).posts = s.posts ∧
    (loadPostsFailure s msg).error = some msg ∧
    sentinelRendered (loadPostsFailure s msg) = true ∧
    (observerFire (loadPostsFailure s msg)).fetches = s.fetches ++ [s.offset] := by
  refine ⟨rfl, rfl, ?_, ?_⟩
  · simp [sentinelRendered, loadPostsFailure, h]
  · simp [observerFire, loadPostsStart, loadPostsFailure, h]

/-- C7, witness: the amended statement at the concrete mid-fetch state and
message "e2". -/
theorem c7_failure_witness :
    feedMid.hasMore = true ∧
    ((loadPostsFailure feedMid "e2").posts = feedMid.posts ∧
     (loadPostsFailure feedMid "e2").error = some "e2" ∧
     sentinelRendered (loadPostsFailure feedMid "e2") = true ∧
     (observerFire (loadPostsFailure feedMid "e2")).fetches =
       feedMid.fetches ++ [feedMid.offset]) :=
  ⟨rfl, c7_failure_amended feedMid "e2" rfl⟩

/-! ### Claim C8: the `hasMore` flag -/

/-- C8: for every positive limit, the `hasMore` flag of the `GET /api/posts`
response equals `returned_count == limit`; in particular the empty page is
returned as a valid response (`posts = []`) with `hasMore = false`, matching
the biconditional since `0 ≠ limit`. -/
theorem c8_hasMore_iff (table : List PostRow) (userId : Option String)
    (limit offset : Nat) (h : 0 < limit) :
    ((getPosts table userId limit offset).hasMore = true ↔
      (getPosts table userId limit offset).posts.length = limit) := by
  have hpost : getPosts table userId limit offset =
      (if (postStatsQuery table userId limit offset).isEmpty then
        ({ posts := [], hasMore := false } : PostsResponse)
      else { posts := postStatsQuery table userId limit offset,
             hasMore := (postStatsQuery table userId limit offset).length == limit
           }) := rfl
  rw [hpost]
  split
  · simp
    omega
  · simp

/-- C8, witness: a two-row table queried with limit 1 and offset 0. -/
theorem c8_hasMore_witness :
    0 < 1 ∧
    ((getPosts [rowA, rowB] none 1 0).hasMore = true ↔
      (getPosts [rowA, rowB] none 1 0).posts.length = 1) :=
  ⟨by decide, c8_hasMore_iff [rowA, rowB] none 1 0 (by decide)⟩

/-! ### Claim C9: comment deletion returning 404 -/

/-- C9, counterexample: deleting the already-deleted comment "c1" (absent
from the server table, so the endpoint answers 404) makes
`handleCommentDelete` throw like any failure: the comment stays in the local
list and an alert is surfaced — the 404 is not treated as
success-equivalent. -/
theorem c9_notfound_counterexample :
    commentsDeleteStatus [] "u1" "c1" = 404 ∧
    handleCommentDelete ⟨["c1"], 1, false, false⟩ "c1"
        (commentsDeleteStatus [] "u1" "c1") =
      ⟨["c1"], 1, true, false⟩ := by
  decide

/-- C9, amended: a comment-deletion response with any non-2xx status — 404
for an already-deleted comment included — is handled as a generic error: the
local comment list is left unchanged (no removal) and an error alert is
surfaced; only a success response removes the comment locally. -/
theorem c9_notfound_amended (v : CommentsView) (commentId : String)
    (status : Nat) (h : isOk status = false) :
    (handleCommentDelete v commentId status).comments = v.comments ∧
    (handleCommentDelete v commentId status).alertShown = true := by
  simp [handleCommentDelete, h]

/-- C9, witness: the amended statement at a concrete view and a 404. -/
theorem c9_notfound_witness :
    isOk 404 = false ∧
    ((handleCommentDelete ⟨["c1"], 1, false, false⟩ "c2" 404).comments = ["c1"] ∧
     (handleCommentDelete ⟨["c1"], 1, false, false⟩ "c2" 404).alertShown = true) :=
  ⟨by decide, c9_notfound_amended ⟨["c1"], 1, false, false⟩ "c2" 404 (by decide)⟩

/-! ### Claim C10: self-follow rejection -/

/-- C10: for every authenticated `POST /api/follows` request whose resolved
follower id equals the requested `followingId`, the endpoint answers 400
with an error body and the `follows` table is unchanged: the self-follow
guard runs before any insert. -/
theorem c10_self_follow (db : FollowsDb) (clerkId followingId : String)
    (u : String × String)
    (hu : db.users.find? (fun p => p.2 == clerkId) = some u)
    (hself : u.1 = followingId) :
    (followsPost db (some clerkId) (some followingId)).status = 400 ∧
    (followsPost db (some clerkId) (some followingId)).error.isSome = true ∧
    (followsPost db (some clerkId) (some followingId)).db.follows = db.follows := by
  simp only [followsPost]
  rw [hu]
  simp [hself]

/-- C10, witness: the single-user database where user "u1" (clerk id "c1")
requests to follow "u1". -/
theorem c10_self_follow_witness :
    dbSelf.users.find? (fun p => p.2 == "c1") = some ("u1", "c1") ∧
    ("u1", "c1").1 = "u1" ∧
    ((followsPost dbSelf (some "c1") (some "u1")).status = 400 ∧
     (followsPost dbSelf (some "c1") (some "u1")).error.isSome = true ∧
     (followsPost dbSelf (some "c1") (some "u1")).db.follows = dbSelf.follows) :=
  ⟨by decide, rfl, c10_self_follow dbSelf "c1" "u1" ("u1", "c1") (by decide) rfl⟩

end SnsProj
